import Mathlib

/-!
Shallow embedding of the OSC core of `obs_xr18_sync.py`: the snapshot-recall
command sender (`load_snapshot`) and the snapshot-name discovery procedure
(`fetch_snapshot_names`), together with a model of the OSC wire codec used by
the snapshot-recall datagram.

Network effects are made explicit: an environment value records which socket
operations succeed and which datagrams (already parsed, or malformed) arrive
before the receive timeout; the functions return the observable outcome
(result list, send trace, whether the outer exception handler ran, elapsed
milliseconds).
-/

namespace ObsXr18

/-- One OSC argument value as carried by a parsed reply (`OscMessage.params`
element); the script only ever inspects it through Python `str()`. -/
inductive OscArg where
  | int (i : Int)
  | str (s : String)
  deriving DecidableEq

/-- A parsed inbound OSC datagram: the result of a successful
`OscMessage(data)` call, exposing `.address` and `.params`. -/
structure OscMsg where
  address : String
  params : List OscArg
  deriving DecidableEq

/-- Python `str()` applied to a reply parameter (`str(reply.params[0])`). -/
def pyStr : OscArg → String
  | .int i => toString i
  | .str s => s

/-- Python whitespace as stripped by `str.strip()`: space, tab, newline,
carriage return, vertical tab, form feed (by character code). -/
def pyWs (c : Char) : Bool :=
  c.toNat = 32 || c.toNat = 9 || c.toNat = 10 || c.toNat = 13 ||
    c.toNat = 11 || c.toNat = 12

/-- Python `str.strip()`: remove leading and trailing whitespace. -/
def pyStrip (s : String) : String :=
  String.mk (((s.toList.dropWhile pyWs).reverse.dropWhile pyWs).reverse)

/-- Python `str.isdigit()` restricted to ASCII text: non-empty and every
character a decimal digit. -/
def pyIsdigit (s : String) : Bool :=
  !s.toList.isEmpty && s.toList.all (fun c => 48 ≤ c.toNat && c.toNat ≤ 57)

/-- Python `int()` on an all-digits decimal string. -/
def digitsToNat (s : String) : Nat :=
  s.toList.foldl (fun n c => n * 10 + (c.toNat - 48)) 0

/-- Python `str.startswith(pre)`. -/
def pyStartsWith (pre s : String) : Bool :=
  pre.toList.isPrefixOf s.toList

/-- Python `str.endswith(suf)`. -/
def pyEndsWith (suf s : String) : Bool :=
  suf.toList.reverse.isPrefixOf s.toList.reverse

/-- Split a character list at every occurrence of the separator; mirrors
Python `str.split(sep)` with a one-character separator (the empty string
splits to `[""]`). -/
def splitOnCharList (sep : Char) : List Char → List (List Char)
  | [] => [[]]
  | c :: rest =>
    match splitOnCharList sep rest with
    | [] => if c = sep then [[], []] else [[c]]
    | h :: t => if c = sep then [] :: h :: t else (c :: h) :: t

/-- Python `str.split(sep)` with a one-character separator. -/
def pySplit (sep : Char) (s : String) : List String :=
  (splitOnCharList sep s.toList).map String.mk

/-- Model of `names.append((int(idx_str), snap_name))` guarded by the address and
argument checks of the receive loop (lines 70-78 of the script): the reply is
appended only when the address has shape `[slash]-snap/<digits>/name` with at least
4 slash-separated parts, the params list is non-empty and the first param is
non-empty after `strip()`. No range check is applied to the index. -/
def recordReply (names : List (Nat × String)) (m : OscMsg) : List (Nat × String) :=
  if pyStartsWith "/-snap/" m.address && pyEndsWith "/name" m.address then
    let parts := pySplit '/' m.address
    if parts.length ≥ 4 then
      let idx_str := parts.getD 2 ""
      if pyIsdigit idx_str && !m.params.isEmpty then
        let snap_name := pyStrip (pyStr (m.params.getD 0 (.int 0)))
        if snap_name ≠ "" then names ++ [(digitsToNat idx_str, snap_name)]
        else names
      else names
    else names
  else names

/-- Input to one iteration of the receive loop: either `recvfrom`
yields a datagram after `wait` milliseconds (parsed to `some m`, or `none`
when `OscMessage(data)` raises), or it raises `socket.timeout` after the full
500 ms window, or it raises some other socket-level error. -/
inductive RxEvent where
  | packet (wait : Nat) (decoded : Option OscMsg)
  | timeout
  | sockError
  deriving DecidableEq

/-- Receive timeout `sock.settimeout(0.5)` in milliseconds. -/
def recvTimeoutMs : Nat := 500

/-- Inter-send pause `time.sleep(0.005)` in milliseconds. -/
def interSendMs : Nat := 5

/-- Observable outcome of the `while True:` receive loop: the accumulated
`names` list, whether a non-timeout exception escaped the loop (to be caught
by the outer handler), and the milliseconds spent waiting on `recvfrom`. -/
structure RecvOutcome where
  acc : List (Nat × String)
  raised : Bool
  elapsedMs : Nat
  deriving DecidableEq

/-- The receive loop (lines 62-80): process arriving datagrams, skipping ones
that fail to parse (`continue`), until `socket.timeout` breaks the loop; any
other socket error escapes the loop (caught by the outer handler with the
accumulator as collected so far). -/
def recvLoop : List RxEvent → List (Nat × String) → RecvOutcome
  | [], acc => ⟨acc, false, 0⟩
  | .timeout :: _, acc => ⟨acc, false, recvTimeoutMs⟩
  | .sockError :: _, acc => ⟨acc, true, 0⟩
  | .packet w d :: rest, acc =>
      let acc2 := match d with
        | none => acc
        | some m => recordReply acc m
      let r := recvLoop rest acc2
      ⟨r.acc, r.raised, w + r.elapsedMs⟩

/-- Python `{i:02d}`-format style two-digit zero padding of a slot number. -/
def pad2 (n : Nat) : String :=
  if n < 10 then "0" ++ toString n else toString n

/-- The per-slot query address `"[slash]-snap/" + pad2 i + "/name"` (line 57). -/
def queryAddr (i : Nat) : String :=
  "/-snap/" ++ pad2 i ++ "/name"

/-- One observable action of the send burst: a query datagram sent, or a
`time.sleep` pause. -/
inductive SendAct where
  | send (addr : String)
  | sleepMs (ms : Nat)
  deriving DecidableEq

/-- Milliseconds spent sleeping during a send trace. -/
def elapsedOfTrace : List SendAct → Nat
  | [] => 0
  | .send _ :: rest => elapsedOfTrace rest
  | .sleepMs m :: rest => m + elapsedOfTrace rest

/-- The send burst (lines 56-60) over the given slot numbers: for each slot a
query is sent and followed by a 5 ms sleep, unless `sendto` raises at slot
`i` (`failAt = some i`), which aborts the burst with the trace so far. -/
def sendBurstGo (failAt : Option Nat) : List Nat → List SendAct × Bool
  | [] => ([], false)
  | i :: rest =>
    if failAt = some i then ([], true)
    else
      let r := sendBurstGo failAt rest
      (SendAct.send (queryAddr i) :: SendAct.sleepMs interSendMs :: r.1, r.2)

/-- Environment of one `fetch_snapshot_names` call: which socket operations
succeed (`socket()`, `bind`), at which slot `sendto` raises if any, and the
stream consumed by `recvfrom`. -/
structure NetEnv where
  sockOk : Bool
  bindOk : Bool
  sendFailAt : Option Nat
  events : List RxEvent
  deriving DecidableEq

/-- Stable insertion of a reply before the first entry whose index is not
smaller; used to model the stable Python `list.sort(key=lambda x: x[0])`. -/
def insertByIdx (p : Nat × String) : List (Nat × String) → List (Nat × String)
  | [] => [p]
  | q :: rest => if q.1 < p.1 then q :: insertByIdx p rest else p :: q :: rest

/-- Stable ascending sort by snapshot index, modelling
`names.sort(key=lambda x: x[0])` (line 86): the Python sort is stable, and a
stable insertion sort computes the same list. -/
def sortByIdx : List (Nat × String) → List (Nat × String)
  | [] => []
  | p :: rest => insertByIdx p (sortByIdx rest)

/-- Observable outcome of `fetch_snapshot_names`: the returned (sorted)
list, the accumulator as it stood before sorting, the send trace, whether the
outer `except Exception` handler ran, and the elapsed waiting time. -/
structure FetchOutcome where
  result : List (Nat × String)
  raw : List (Nat × String)
  sendTrace : List SendAct
  raised : Bool
  elapsedMs : Nat
  deriving DecidableEq

/-- Model of `fetch_snapshot_names` (lines 47-87): create and bind a UDP socket, send
one name query per slot 1..64 with a 5 ms pause after each, then drain
replies until timeout; every socket-level failure is caught by the outer
handler, after which the accumulator collected so far is sorted and
returned. -/
def fetch_snapshot_names (env : NetEnv) : FetchOutcome :=
  if env.sockOk = false then ⟨sortByIdx [], [], [], true, 0⟩
  else if env.bindOk = false then ⟨sortByIdx [], [], [], true, 0⟩
  else
    let burst := sendBurstGo env.sendFailAt (List.range' 1 64)
    if burst.2 then ⟨sortByIdx [], [], burst.1, true, elapsedOfTrace burst.1⟩
    else
      let r := recvLoop env.events []
      ⟨sortByIdx r.acc, r.acc, burst.1, r.raised,
        elapsedOfTrace burst.1 + r.elapsedMs⟩

/-- The observable signal of one `load_snapshot` call: which exit path the
function took (the Python function itself always returns `None`; the paths
are distinguished by their side effects and log lines). -/
inductive LoadOutcome where
  | notReady
  | outOfRange
  | sent
  | sendError
  deriving DecidableEq

/-- Observable outcome of `load_snapshot`: the datagrams handed to the OSC
client as (address, argument) pairs, the exit path taken, and whether an
error line was logged. -/
structure LoadResult where
  sends : List (String × Int)
  outcome : LoadOutcome
  errorLogged : Bool
  deriving DecidableEq

/-- Model of `load_snapshot` (lines 90-101): return at once when the client handle is
`None`; reject indices outside 1..64 before any send; otherwise send one
`"[slash]-snap/load"` message with the index as argument, logging an error (and
sending nothing) when `send_message` raises. `clientReady` models
`_client is not None`, `sendOk` models whether `send_message` succeeds. -/
def load_snapshot (clientReady : Bool) (sendOk : Bool) (snapshot_id : Int) :
    LoadResult :=
  if clientReady = false then ⟨[], .notReady, false⟩
  else if snapshot_id < 1 ∨ snapshot_id > 64 then ⟨[], .outOfRange, false⟩
  else if sendOk then ⟨[("/-snap/load", snapshot_id)], .sent, false⟩
  else ⟨[], .sendError, true⟩

/-- Big-endian 4-byte encoding of a 32-bit unsigned value. -/
def natToBE4 (n : Nat) : List Nat :=
  [n / 16777216 % 256, n / 65536 % 256, n / 256 % 256, n % 256]

/-- Byte values of an ASCII address string. -/
def strBytes (s : String) : List Nat :=
  s.toList.map Char.toNat

/-- Pad a byte sequence with 1..4 zero bytes up to a multiple of 4, as the
OSC wire format requires for strings and type tags. -/
def oscPadded (bs : List Nat) : List Nat :=
  bs ++ List.replicate (4 - bs.length % 4) 0

/-- Modelled from the spec: the message codec (section 4.1) for a
single-integer-argument command, as realised by the `pythonosc` dependency
(a dependency, not part of the sources of this repository) for
`send_message(address, int_arg)`: the null-padded address, the padded type
tag `,i`, then the big-endian 32-bit argument. -/
def encodeOsc (addr : String) (arg : Nat) : List Nat :=
  oscPadded (strBytes addr) ++ oscPadded [44, 105] ++ natToBE4 arg

/-- Rebuild a string from byte values. -/
def bytesToStr (bs : List Nat) : String :=
  String.mk (bs.map Char.ofNat)

/-- Modelled from the spec: the decode side of the codec (section 4.1) for a
single-integer-argument message: read the address up to its null padding,
require the padded `,i` type tag, then read the 4-byte big-endian argument;
anything else is a malformed packet (`none`). -/
def decodeOsc (d : List Nat) : Option (String × Nat) :=
  let addrBytes := d.takeWhile (fun b => b ≠ 0)
  if addrBytes.isEmpty then none
  else
    match d.drop (addrBytes.length + (4 - addrBytes.length % 4)) with
    | [44, 105, 0, 0, a, b, c, e] =>
        some (bytesToStr addrBytes, ((a * 256 + b) * 256 + c) * 256 + e)
    | _ => none

/-- Ascending (non-strict) order of the result pairs by snapshot index. -/
def SortedByIdx (l : List (Nat × String)) : Prop :=
  l.Pairwise (fun p q => p.1 ≤ q.1)

theorem mem_insertByIdx {x p : Nat × String} {l : List (Nat × String)}
    (h : x ∈ insertByIdx p l) : x = p ∨ x ∈ l := by
  induction l with
  | nil => simpa [insertByIdx] using h
  | cons q rest ih =>
    by_cases hq : q.1 < p.1
    · simp only [insertByIdx, if_pos hq, List.mem_cons] at h
      rcases h with h | h
      · exact Or.inr (by simp [h])
      · rcases ih h with h1 | h1
        · exact Or.inl h1
        · exact Or.inr (by simp [h1])
    · simp only [insertByIdx, if_neg hq, List.mem_cons] at h
      rcases h with h | h | h
      · exact Or.inl h
      · exact Or.inr (by simp [h])
      · exact Or.inr (by simp [h])

theorem sortedByIdx_insertByIdx {p : Nat × String} {l : List (Nat × String)}
    (h : SortedByIdx l) : SortedByIdx (insertByIdx p l) := by
  induction l with
  | nil => simp [insertByIdx, SortedByIdx]
  | cons q rest ih =>
    rcases List.pairwise_cons.mp h with ⟨hq, hrest⟩
    by_cases hlt : q.1 < p.1
    · rw [SortedByIdx, insertByIdx, if_pos hlt]
      refine List.pairwise_cons.mpr ⟨?_, ih hrest⟩
      intro x hx
      rcases mem_insertByIdx hx with rfl | hx
      · omega
      · exact hq x hx
    · rw [SortedByIdx, insertByIdx, if_neg hlt]
      refine List.pairwise_cons.mpr ⟨?_, h⟩
      intro x hx
      rcases List.mem_cons.mp hx with rfl | hx
      · omega
      · have := hq x hx
        omega

theorem sortByIdx_sorted (l : List (Nat × String)) : SortedByIdx (sortByIdx l) := by
  induction l with
  | nil => simp [sortByIdx, SortedByIdx]
  | cons p rest ih => exact sortedByIdx_insertByIdx ih

theorem filter_insertByIdx (k : Nat) (p : Nat × String) (l : List (Nat × String)) :
    (insertByIdx p l).filter (fun q => q.1 == k) =
      if p.1 = k then p :: l.filter (fun q => q.1 == k)
      else l.filter (fun q => q.1 == k) := by
  induction l with
  | nil => by_cases hp : p.1 = k <;> simp [insertByIdx, List.filter_cons, hp]
  | cons q rest ih =>
    by_cases hlt : q.1 < p.1
    · rw [insertByIdx, if_pos hlt]
      by_cases hq : q.1 = k
      · have hp : ¬ p.1 = k := by omega
        simp [List.filter_cons, hq, hp, ih]
      · by_cases hp : p.1 = k <;> simp [List.filter_cons, hq, hp, ih]
    · rw [insertByIdx, if_neg hlt]
      by_cases hp : p.1 = k <;> simp [List.filter_cons, hp]

theorem filter_sortByIdx (k : Nat) (l : List (Nat × String)) :
    (sortByIdx l).filter (fun q => q.1 == k) = l.filter (fun q => q.1 == k) := by
  induction l with
  | nil => rfl
  | cons p rest ih =>
    rw [sortByIdx, filter_insertByIdx]
    by_cases hp : p.1 = k <;> simp [List.filter_cons, hp, ih]

theorem fetch_result_eq_sort_raw (env : NetEnv) :
    (fetch_snapshot_names env).result = sortByIdx (fetch_snapshot_names env).raw := by
  simp only [fetch_snapshot_names]
  split
  · rfl
  · split
    · rfl
    · split <;> rfl

theorem fetch_sorted (env : NetEnv) : SortedByIdx (fetch_snapshot_names env).result := by
  rw [fetch_result_eq_sort_raw]
  exact sortByIdx_sorted _

theorem recvLoop_stop_at_timeout (xs ys : List RxEvent) (acc : List (Nat × String)) :
    recvLoop (xs ++ RxEvent.timeout :: ys) acc = recvLoop (xs ++ [RxEvent.timeout]) acc := by
  induction xs generalizing acc with
  | nil => rfl
  | cons x rest ih =>
    cases x with
    | timeout => rfl
    | sockError => rfl
    | packet w d => simp [recvLoop, ih]

theorem recvLoop_stop_at_sockError (xs ys : List RxEvent) (acc : List (Nat × String)) :
    recvLoop (xs ++ RxEvent.sockError :: ys) acc = recvLoop (xs ++ [RxEvent.sockError]) acc := by
  induction xs generalizing acc with
  | nil => rfl
  | cons x rest ih =>
    cases x with
    | timeout => rfl
    | sockError => rfl
    | packet w d => simp [recvLoop, ih]

theorem recvLoop_skip_malformed (xs ys : List RxEvent) (w : Nat)
    (acc : List (Nat × String)) :
    (recvLoop (xs ++ RxEvent.packet w none :: ys) acc).acc =
        (recvLoop (xs ++ ys) acc).acc ∧
      (recvLoop (xs ++ RxEvent.packet w none :: ys) acc).raised =
        (recvLoop (xs ++ ys) acc).raised := by
  induction xs generalizing acc with
  | nil => exact ⟨rfl, rfl⟩
  | cons x rest ih =>
    cases x with
    | timeout => exact ⟨rfl, rfl⟩
    | sockError => exact ⟨rfl, rfl⟩
    | packet w2 d =>
      rcases ih (match d with | none => acc | some m => recordReply acc m) with ⟨h1, h2⟩
      constructor
      · simpa [recvLoop] using h1
      · simpa [recvLoop] using h2

theorem sendBurstGo_none (l : List Nat) :
    sendBurstGo none l =
      ((l.map fun i => [SendAct.send (queryAddr i), SendAct.sleepMs interSendMs]).flatten,
        false) := by
  induction l with
  | nil => rfl
  | cons i rest ih => simp [sendBurstGo, ih]

theorem encodeOsc_load_small (n : Nat) (h : n < 256) :
    encodeOsc "/-snap/load" n =
      [47, 45, 115, 110, 97, 112, 47, 108, 111, 97, 100, 0, 44, 105, 0, 0, 0, 0, 0, n] := by
  have h1 : strBytes "/-snap/load" = [47, 45, 115, 110, 97, 112, 47, 108, 111, 97, 100] := by
    decide
  have e1 : n / 16777216 = 0 := Nat.div_eq_of_lt (by omega)
  have e2 : n / 65536 = 0 := Nat.div_eq_of_lt (by omega)
  have e3 : n / 256 = 0 := Nat.div_eq_of_lt (by omega)
  unfold encodeOsc natToBE4
  rw [h1, e1, e2, e3, Nat.mod_eq_of_lt h]
  simp [oscPadded]

theorem decodeOsc_load_small (n : Nat) :
    decodeOsc [47, 45, 115, 110, 97, 112, 47, 108, 111, 97, 100, 0, 44, 105, 0, 0, 0, 0, 0, n] =
      some ("/-snap/load", n) := by
  unfold decodeOsc
  norm_num [List.takeWhile, bytesToStr]

/-- C1 counterexample: a responder answering slot 5 twice (names "A" then
"B") yields a result with BOTH entries for slot 5, the earlier name first;
the claimed last-writer-wins result `[(5, "B")]` is not produced. -/
theorem c1_duplicate_replies_counterexample :
    (fetch_snapshot_names ⟨true, true, none,
        [RxEvent.packet 0 (some ⟨"/-snap/05/name", [OscArg.str "A"]⟩),
         RxEvent.packet 0 (some ⟨"/-snap/05/name", [OscArg.str "B"]⟩),
         RxEvent.timeout]⟩).result = [(5, "A"), (5, "B")] ∧
      (fetch_snapshot_names ⟨true, true, none,
        [RxEvent.packet 0 (some ⟨"/-snap/05/name", [OscArg.str "A"]⟩),
         RxEvent.packet 0 (some ⟨"/-snap/05/name", [OscArg.str "B"]⟩),
         RxEvent.timeout]⟩).result ≠ [(5, "B")] := by
  decide

/-- C1 (amended): every discovery result is sorted ascending by slot index,
and for each index the entries with that index are exactly the recorded
replies for it, kept in arrival order (the sort is stable); duplicates are
retained, not collapsed to the most recent. -/
theorem c1_discovery_sorted_stable_amended (env : NetEnv) (k : Nat) :
    SortedByIdx (fetch_snapshot_names env).result ∧
      (fetch_snapshot_names env).result.filter (fun p => p.1 == k) =
        (fetch_snapshot_names env).raw.filter (fun p => p.1 == k) := by
  refine ⟨fetch_sorted env, ?_⟩
  rw [fetch_result_eq_sort_raw, filter_sortByIdx]

/-- C2 counterexample: with the client handle uninitialized and the
out-of-range index 0, `load_snapshot` performs zero sends but signals
NotReady (the handle check precedes the range check), not OutOfRange. -/
theorem c2_uninitialized_client_counterexample :
    (load_snapshot false true 0).sends = [] ∧
      (load_snapshot false true 0).outcome = LoadOutcome.notReady ∧
      ¬ (load_snapshot false true 0).outcome = LoadOutcome.outOfRange := by
  decide

/-- C2 (amended): when the transport handle is initialized, every index
outside 1..64 is rejected with OutOfRange, with zero network sends and no
error log, regardless of whether a send would succeed — the rejection
happens before any network I/O. -/
theorem c2_out_of_range_rejected_amended (sendOk : Bool) (id : Int)
    (h : id < 1 ∨ id > 64) :
    load_snapshot true sendOk id = ⟨[], LoadOutcome.outOfRange, false⟩ := by
  unfold load_snapshot
  rw [if_neg (by simp), if_pos h]

/-- C2 witness: the amended theorem applied at index 0 with sends enabled. -/
theorem c2_out_of_range_rejected_amended_witness :
    load_snapshot true true 0 = ⟨[], LoadOutcome.outOfRange, false⟩ :=
  c2_out_of_range_rejected_amended true 0 (by decide)

/-- C3 counterexample: a reply addressed to slot 99 — outside 1..64 — with
the non-empty name "x" is recorded, not discarded. -/
theorem c3_out_of_range_index_recorded_counterexample :
    (fetch_snapshot_names ⟨true, true, none,
        [RxEvent.packet 0 (some ⟨"/-snap/99/name", [OscArg.str "x"]⟩),
         RxEvent.timeout]⟩).result = [(99, "x")] := by
  decide

/-- C3 (amended): each datagram either leaves the accumulator unchanged or
appends exactly one pair whose name is the whitespace-trimmed first argument
and is non-empty, and whose index is the decimal value of the all-digits
third address segment; no 1..64 range check is applied to that index. -/
theorem c3_reply_filtering_amended (acc : List (Nat × String)) (m : OscMsg) :
    recordReply acc m = acc ∨
      (recordReply acc m =
          acc ++ [(digitsToNat ((pySplit (Char.ofNat 47) m.address).getD 2 ""),
                   pyStrip (pyStr (m.params.getD 0 (OscArg.int 0))))] ∧
        pyStrip (pyStr (m.params.getD 0 (OscArg.int 0))) ≠ "" ∧
        pyIsdigit ((pySplit (Char.ofNat 47) m.address).getD 2 "") = true) := by
  simp only [recordReply]
  split
  next h1 =>
    split
    next h2 =>
      split
      next h3 =>
        split
        next h4 =>
          right
          refine ⟨?_, h4, ((Bool.and_eq_true _ _).mp h3).1⟩
          rfl
        next h4 => left; rfl
      next h3 => left; rfl
    next h2 => left; rfl
  next h1 => left; rfl

/-- C4: for every index in 1..64, with the client initialized and the send
succeeding, `load_snapshot` emits exactly one datagram with the
load address ([slash]-snap/load) and the index as its single argument, and the modelled OSC
codec round-trips that datagram back to the same address and index. -/
theorem c4_recall_roundtrip (id : Int) (h1 : 1 ≤ id) (h2 : id ≤ 64) :
    (load_snapshot true true id).sends = [("/-snap/load", id)] ∧
      decodeOsc (encodeOsc "/-snap/load" id.toNat) = some ("/-snap/load", id.toNat) := by
  constructor
  · unfold load_snapshot
    rw [if_neg (by simp), if_neg (by omega), if_pos rfl]
  · rw [encodeOsc_load_small id.toNat (by omega)]
    exact decodeOsc_load_small id.toNat

/-- C4 witness: the round-trip theorem applied at index 5. -/
theorem c4_recall_roundtrip_witness :
    (load_snapshot true true 5).sends = [("/-snap/load", 5)] ∧
      decodeOsc (encodeOsc "/-snap/load" (5 : Int).toNat) =
        some ("/-snap/load", (5 : Int).toNat) :=
  c4_recall_roundtrip 5 (by decide) (by decide)

/-- C5: when no socket operation fails, discovery sends exactly one query
per slot 1..64 in ascending order with a 5 ms sleep after each send, and
every query address is of shape [slash]-snap/NN/name with NN the two-digit,
zero-padded, all-digits slot number. -/
theorem c5_discovery_send_burst (env : NetEnv)
    (h1 : env.sockOk = true) (h2 : env.bindOk = true) (h3 : env.sendFailAt = none) :
    (fetch_snapshot_names env).sendTrace =
        ((List.range' 1 64).map fun i =>
          [SendAct.send (queryAddr i), SendAct.sleepMs interSendMs]).flatten ∧
      ∀ i ∈ List.range' 1 64,
        queryAddr i = "/-snap/" ++ pad2 i ++ "/name" ∧
          (pad2 i).toList.length = 2 ∧ pyIsdigit (pad2 i) = true := by
  constructor
  · simp only [fetch_snapshot_names, h1, h2, h3, sendBurstGo_none]
    norm_num
  · decide

/-- C5 witness: the send-burst theorem applied to a fault-free environment
with no inbound datagrams. -/
theorem c5_discovery_send_burst_witness :
    (fetch_snapshot_names ⟨true, true, none, []⟩).sendTrace =
        ((List.range' 1 64).map fun i =>
          [SendAct.send (queryAddr i), SendAct.sleepMs interSendMs]).flatten ∧
      ∀ i ∈ List.range' 1 64,
        queryAddr i = "/-snap/" ++ pad2 i ++ "/name" ∧
          (pad2 i).toList.length = 2 ∧ pyIsdigit (pad2 i) = true :=
  c5_discovery_send_burst ⟨true, true, none, []⟩ rfl rfl rfl

/-- C6: when `send_message` raises a socket-level error on an in-range
index, `load_snapshot` emits no datagram, takes the sendError exit path and
logs the error — the transport failure is signalled, not silently
dropped. -/
theorem c6_send_error_signaled (id : Int) (h1 : 1 ≤ id) (h2 : id ≤ 64) :
    load_snapshot true false id = ⟨[], LoadOutcome.sendError, true⟩ := by
  unfold load_snapshot
  rw [if_neg (by simp), if_neg (by omega)]
  rfl

/-- C6 witness: the send-error theorem applied at index 3. -/
theorem c6_send_error_signaled_witness :
    load_snapshot true false 3 = ⟨[], LoadOutcome.sendError, true⟩ :=
  c6_send_error_signaled 3 (by decide) (by decide)

/-- C7: whenever the client handle is uninitialized, `load_snapshot`
performs no send, logs nothing, and signals NotReady via its first early
return, for every index and regardless of whether a send would succeed. -/
theorem c7_not_ready_no_send (sendOk : Bool) (id : Int) :
    load_snapshot false sendOk id = ⟨[], LoadOutcome.notReady, false⟩ := rfl

/-- C8: discovery never fails outright — a datagram that fails to decode is
skipped without affecting the collected names or the raised flag (later
valid replies are still recorded exactly as without it), and a full timeout
yields the empty list as a normal, non-error result. -/
theorem c8_discovery_never_fails (xs ys : List RxEvent) (w : Nat)
    (acc : List (Nat × String)) :
    ((recvLoop (xs ++ RxEvent.packet w none :: ys) acc).acc =
        (recvLoop (xs ++ ys) acc).acc ∧
      (recvLoop (xs ++ RxEvent.packet w none :: ys) acc).raised =
        (recvLoop (xs ++ ys) acc).raised) ∧
      (fetch_snapshot_names ⟨true, true, none, [RxEvent.timeout]⟩).result = [] ∧
      (fetch_snapshot_names ⟨true, true, none, [RxEvent.timeout]⟩).raised = false :=
  ⟨recvLoop_skip_malformed xs ys w acc, by decide, by decide⟩

/-- C9: the receive loop ends at the first observed timeout (events after it
are never consumed), and against a non-responding endpoint discovery returns
the empty result after exactly 64 inter-send pauses plus one receive
timeout: 64 × 5 ms + 500 ms. -/
theorem c9_discovery_terminates_bounded (xs ys : List RxEvent)
    (acc : List (Nat × String)) :
    recvLoop (xs ++ RxEvent.timeout :: ys) acc = recvLoop (xs ++ [RxEvent.timeout]) acc ∧
      (fetch_snapshot_names ⟨true, true, none, [RxEvent.timeout]⟩).result = [] ∧
      (fetch_snapshot_names ⟨true, true, none, [RxEvent.timeout]⟩).elapsedMs =
        64 * interSendMs + recvTimeoutMs :=
  ⟨recvLoop_stop_at_timeout xs ys acc, by decide, by decide⟩

/-- C10: for every environment — including socket-creation, bind, send and
receive failures — `fetch_snapshot_names` returns normally with a result
sorted ascending by index, that result is exactly the sorted accumulator
collected before any failure, and a socket error in the receive stream ends
the loop there, discarding nothing already collected. -/
theorem c10_no_escape_partial_sorted (env : NetEnv) (xs ys : List RxEvent)
    (acc : List (Nat × String)) :
    SortedByIdx (fetch_snapshot_names env).result ∧
      (fetch_snapshot_names env).result = sortByIdx (fetch_snapshot_names env).raw ∧
      recvLoop (xs ++ RxEvent.sockError :: ys) acc =
        recvLoop (xs ++ [RxEvent.sockError]) acc :=
  ⟨fetch_sorted env, fetch_result_eq_sort_raw env, recvLoop_stop_at_sockError xs ys acc⟩

end ObsXr18
